import Mathlib

/-!
Verification development for the message-send orchestration engine of the
Cognito side-panel chat client (`useSendMessage`).

Text is modelled as `List Char` so that truncation, concatenation and
substring search have a directly analysable form.  The mutable React state
of the hook (turn list, loading flag, chat status, completion guard ref and
abort controller ref) is collected in `ChatState`, and each handler of the
hook becomes an explicit state transformer:

* `updateAssistantTurn` embeds the stream-reconciler callback;
* `onSendModel` embeds the `onSend` handler, with the results of the awaited
  collaborator calls (scrape, query optimisation, web search, page read,
  dispatch strategy) supplied through a `SendOracles` record, and the order
  of the awaited sub-operations and of the Turn-Store appends recorded in an
  event trace;
* `onStopModel` embeds the `onStop` handler.

UI-only state that never feeds back into the orchestration logic (the text
input box mutated by `setMessage`, and the `setWebContent` / `setPageContent`
display mirrors) is outside `ChatState`; the request payload sent to the
backend (`messageForApi`, temperature, etc.) is likewise external to the
modelled state, except for the system prompt, whose construction the spec
makes claims about and which is embedded as `systemContentOf`.
-/

namespace Cognito

/-- Text, modelled as a list of characters. -/
abbrev Str := List Char

/-- Conversion from a string literal to the `Str` model. -/
def str (s : String) : Str := s.toList

/-- Roles of a conversation turn (`MessageTurn.role`). -/
inductive Role
  | user
  | assistant
deriving DecidableEq, Repr

/-- Status of a conversation turn (`MessageTurn.status`). -/
inductive TurnStatus
  | complete
  | streaming
  | error
  | cancelled
deriving DecidableEq, Repr

/-- Chat status values used by the hook (`setChatStatus`). -/
inductive ChatStatus
  | idle
  | searching
  | reading
  | thinking
  | done
deriving DecidableEq, Repr

/-- A conversation turn (`MessageTurn` of `ChatHistory`). -/
structure MessageTurn where
  role : Role
  rawContent : Str
  status : TurnStatus
  timestamp : Nat
  webDisplayContent : Option Str := none
deriving DecidableEq, Repr

/-- The mutable state of the `useSendMessage` hook: the turn store
(`setTurns`), the loading flag (`setLoading`), the chat status
(`setChatStatus`), the completion guard ref (`completionGuard.current`) and
the abort controller ref (`abortControllerRef.current`, identified by the
`callId` of the send that created it). -/
structure ChatState where
  turns : List MessageTurn
  loading : Bool
  chatStatus : ChatStatus
  completionGuard : Option Nat
  abortController : Option Nat
deriving DecidableEq, Repr

/-- JavaScript `hay.includes(needle)`: substring containment. -/
def containsSub : Str → Str → Bool
  | [], needle => needle.isEmpty
  | h :: t, needle => needle.isPrefixOf (h :: t) || containsSub t needle

/-- The first cancellation phrase recognised by the late-signal check. -/
def cancelMsg1 : Str := str "Operation cancelled by user"

/-- The second cancellation phrase recognised by the late-signal check. -/
def cancelMsg2 : Str := str "Streaming operation cancelled"

/-- The `setTurns` functional update performed by `updateAssistantTurn`
(lines 109-138 of the hook): if the list is empty or its last turn is not an
assistant turn, append a fresh error turn on `isError` and otherwise leave
the list unchanged; else replace the trailing turn, choosing its status by
`error` / `cancelled` / `complete` / `streaming` and its content by the
cancellation-append, error-replacement or wholesale-replacement rule. -/
def updateAssistantTurnTurns (prevTurns : List MessageTurn) (update : Str)
    (isFinished isError isCancelled : Bool) (now : Nat) : List MessageTurn :=
  let noAssistant :=
    if isError then
      prevTurns ++ [{ role := Role.assistant,
                      rawContent := str "Error: " ++
                        (if update = [] then str "Unknown operation error" else update),
                      status := TurnStatus.error,
                      timestamp := now }]
    else prevTurns
  match prevTurns.getLast? with
  | none => noAssistant
  | some lastTurn =>
    if lastTurn.role ≠ Role.assistant then noAssistant
    else
      let updatedStatus :=
        if isError then TurnStatus.error
        else if isCancelled then TurnStatus.cancelled
        else if isFinished then TurnStatus.complete
        else TurnStatus.streaming
      let finalContentForTurn :=
        if isCancelled then
          lastTurn.rawContent ++ (if lastTurn.rawContent = [] then [] else [' ']) ++ update
        else if isError then
          str "Error: " ++ (if update = [] then str "Unknown stream/handler error" else update)
        else update
      prevTurns.dropLast ++
        [{ lastTurn with rawContent := finalContentForTurn,
                         status := updatedStatus, timestamp := now }]

/-- The stream-reconciler callback `updateAssistantTurn(callId, update,
isFinished, isError, isCancelled)` of the hook, as a state transformer:

* a non-terminal update whose `callId` differs from the guard is dropped;
* when the guard slot is already `null` and the `callId` is not `null`, a
  terminal signal of one of the two recognised late shapes (empty finish, or
  an error whose text contains a cancellation phrase) only forces
  `loading := false` and `chatStatus := idle`;
* otherwise the turn list is rewritten by `updateAssistantTurnTurns`, and a
  terminal update additionally clears `loading`, sets the chat status and,
  exactly when the guard still holds this `callId`, clears the guard slot
  and the abort controller ref. -/
def updateAssistantTurn (s : ChatState) (callId : Option Nat) (update : Str)
    (isFinished isError isCancelled : Bool) (now : Nat) : ChatState :=
  if s.completionGuard ≠ callId ∧ ¬isFinished ∧ ¬isError ∧ ¬isCancelled then s
  else if s.completionGuard = none ∧ callId ≠ none ∧
      ((update = [] ∧ isFinished ∧ ¬isError ∧ ¬isCancelled) ∨
       (isError ∧ (containsSub update cancelMsg1 ∨ containsSub update cancelMsg2))) then
    { s with loading := false, chatStatus := ChatStatus.idle }
  else
    let s1 := { s with
      turns := updateAssistantTurnTurns s.turns update isFinished isError isCancelled now }
    if isFinished ∨ isError ∨ isCancelled then
      let finalStatus :=
        if isError then ChatStatus.idle
        else if isCancelled then ChatStatus.idle
        else ChatStatus.done
      let s2 := { s1 with loading := false, chatStatus := finalStatus }
      if s1.completionGuard = callId then
        { s2 with completionGuard := none, abortController := none }
      else s2
    else s1

/-- The chat status set by a terminal update in the reconciler
(`isError ? 'idle' : isCancelled ? 'idle' : 'done'`). -/
def statusAfterTerminal (isError isCancelled : Bool) : ChatStatus :=
  if isError then ChatStatus.idle
  else if isCancelled then ChatStatus.idle
  else ChatStatus.done

/-- JavaScript `x || d` for an optional numeric config field: `undefined`
and `0` both fall back to the default. -/
def jsOrNat (x : Option Nat) (d : Nat) : Nat :=
  match x with
  | some v => if v = 0 then d else v
  | none => d

/-- JavaScript `x || d` for an optional string config field: `undefined`
and the empty string both fall back to the default. -/
def jsOrStr (x : Option Str) (d : Str) : Str :=
  match x with
  | some v => if v = [] then d else v
  | none => d

/-- JavaScript `String.prototype.trim`: whitespace stripped from both ends. -/
def trimStr (l : Str) : Str :=
  ((l.dropWhile Char.isWhitespace).reverse.dropWhile Char.isWhitespace).reverse

/-- JavaScript `String.prototype.toLowerCase` (character-wise). -/
def toLowerStr (l : Str) : Str := l.map Char.toLower

/-- A configured model entry (`Model` of the config types): its id and host. -/
structure LlmModel where
  id : Str
  host : Str
deriving DecidableEq, Repr

/-- The slice of the `Config` record consumed by the orchestration engine.
Optional fields model TypeScript optional properties. -/
structure Config where
  chatMode : Option Str
  webLimit : Option Nat
  contextLimit : Option Nat
  models : List LlmModel
  selectedModel : Str
  computeLevel : Str
  personas : List (Str × Str)
  persona : Str
  useNote : Bool
  noteContent : Str
  userName : Option Str
  userProfile : Option Str
  ollamaUrl : Option Str
  lmStudioUrl : Option Str
  customEndpoint : Option Str
deriving DecidableEq, Repr

/-- Length of the URL scheme prefix matched by the regex
`https?:\/\/` at the head of the text, if any. -/
def urlPrefixLen (l : Str) : Option Nat :=
  if (str "https://").isPrefixOf l then some 8
  else if (str "http://").isPrefixOf l then some 7
  else none

/-- Scanner for the URL regex: at each position, a match is the scheme
prefix followed by at least one further non-whitespace character, extended
greedily; scanning resumes after the match.  `fuel` bounds the number of
scan steps; every step consumes at least one character, so the character
count of the text always suffices. -/
def extractUrlsAux : Nat → Str → List Str
  | 0, _ => []
  | _ + 1, [] => []
  | fuel + 1, c :: rest =>
    match urlPrefixLen (c :: rest) with
    | some k =>
      let body := ((c :: rest).drop k).takeWhile (fun ch => !ch.isWhitespace)
      if body = [] then extractUrlsAux fuel rest
      else
        ((c :: rest).take k ++ body) ::
          extractUrlsAux fuel (((c :: rest).drop k).drop body.length)
    | none => extractUrlsAux fuel rest

/-- `message.match(/(https?:\/\/[^\s]+)/g)`: the list of matches of the URL
regex, scanning left to right and resuming after each match. -/
def extractUrls (l : Str) : List Str := extractUrlsAux l.length l

/-- The scraped-URL context produced from the per-URL scrape results
(`scrapedResults.map(...).join('\n\n')`). -/
def joinScraped (urls contents : List Str) : Str :=
  List.intercalate (str "\n\n")
    ((urls.zip contents).map
      (fun p => str "Content from [" ++ p.1 ++ str "]:\n" ++ p.2))

/-- The post-search `setTurns` map (line 305 of the hook): attach the
optimized/original/fallback query display to the trailing assistant turn
when that turn is not already terminal. -/
def setWebDisplay (turns : List MessageTurn) (display : Str) : List MessageTurn :=
  match turns.getLast? with
  | none => turns
  | some t =>
    if t.role = Role.assistant ∧ t.status ≠ TurnStatus.complete ∧
        t.status ≠ TurnStatus.error ∧ t.status ≠ TurnStatus.cancelled then
      turns.dropLast ++ [{ t with webDisplayContent := some display }]
    else turns

/-- `limitedWebResult` (lines 310-313): the search result cut to
`1000 * (config.webLimit || 1)` characters. -/
def limitedWebResultOf (cfg : Config) (searchRes : Str) : Str :=
  let webLimit := 1000 * jsOrNat cfg.webLimit 1
  if webLimit ≠ 0 then searchRes.take webLimit else searchRes

/-- `webContentForLlm` (line 314): the full search result when
`config.webLimit === 128`, the truncation otherwise. -/
def webContentForLlmOf (cfg : Config) (searchRes : Str) : Str :=
  if cfg.webLimit = some 128 then searchRes else limitedWebResultOf cfg searchRes

/-- `pageContentForLlm` (lines 360-365): the page content cut to
`1000 * (config.contextLimit || 1)` characters, with the `128` sentinel
disabling truncation. -/
def pageContentForLlmOf (cfg : Config) (currentPageContent : Str) : Str :=
  let charLimit := 1000 * jsOrNat cfg.contextLimit 1
  let limitedContent :=
    if charLimit ≠ 0 ∧ currentPageContent ≠ [] then currentPageContent.take charLimit
    else currentPageContent
  if cfg.contextLimit = some 128 then currentPageContent else limitedContent

/-- `config?.personas?.[config?.persona] || ''` (line 373). -/
def personaOf (cfg : Config) : Str :=
  jsOrStr (cfg.personas.lookup cfg.persona) []

/-- `pageContextString` (lines 374-376). -/
def pageContextStringOf (cfg : Config) (pageContentForLlm : Str) : Str :=
  if cfg.chatMode = some (str "page") ∧ pageContentForLlm ≠ [] then
    str "Use the following page content for context: " ++ pageContentForLlm
  else []

/-- `webContextString` (lines 377-379). -/
def webContextStringOf (cfg : Config) (webContentForLlm : Str) : Str :=
  if cfg.chatMode = some (str "web") ∧ webContentForLlm ≠ [] then
    str "Refer to this web search summary: " ++ webContentForLlm
  else []

/-- `noteContextString` (lines 380-382). -/
def noteContextStringOf (cfg : Config) : Str :=
  if cfg.useNote ∧ cfg.noteContent ≠ [] then
    str "Refer to this note for context: " ++ cfg.noteContent
  else []

/-- `userContextStatement` (lines 384-395): built from the trimmed user
name (ignored when empty or the literal name "user") and profile. -/
def userContextStatementOf (cfg : Config) : Str :=
  let userName := match cfg.userName with | some u => trimStr u | none => []
  let userProfile := match cfg.userProfile with | some u => trimStr u | none => []
  if userName ≠ [] ∧ toLowerStr userName ≠ str "user" then
    (str "You are interacting with a user named \x22" ++ userName ++ str "\x22.") ++
      (if userProfile ≠ [] then
        str " Their provided profile information is: \x22" ++ userProfile ++ str "\x22."
      else [])
  else if userProfile ≠ [] then
    str "You are interacting with a user. Their provided profile information is: \x22" ++
      userProfile ++ str "\x22."
  else []

/-- The fixed wrapper around the scraped-URL fragment (line 403). -/
def scrapedWrapper : Str :=
  str "Use the following scraped content from URLs in the user's message:\n"

/-- `systemPromptParts` (lines 397-403): the six conditional pushes, in
source order. -/
def systemPromptPartsOf (persona userCtx note page web scraped : Str) : List Str :=
  (if persona ≠ [] then [persona] else []) ++
  (if userCtx ≠ [] then [userCtx] else []) ++
  (if note ≠ [] then [note] else []) ++
  (if page ≠ [] then [page] else []) ++
  (if web ≠ [] then [web] else []) ++
  (if scraped ≠ [] then [scrapedWrapper ++ scraped] else [])

/-- The scraped-URL context fragment in guarded form: empty when there is no
scraped content, the wrapped content otherwise. -/
def scrapedContextStringOf (scraped : Str) : Str :=
  if scraped = [] then [] else scrapedWrapper ++ scraped

/-- `systemContent` (line 405): the parts joined by blank lines, trimmed. -/
def systemContentOf (cfg : Config) (webContentForLlm pageContentForLlm scraped : Str) : Str :=
  trimStr (List.intercalate (str "\n\n")
    (systemPromptPartsOf (personaOf cfg) (userContextStatementOf cfg)
      (noteContextStringOf cfg) (pageContextStringOf cfg pageContentForLlm)
      (webContextStringOf cfg webContentForLlm) scraped))

/-- Result of the concurrent URL scraping (`Promise.all` over
`scrapeUrlContent`): all contents, or a rejection. -/
inductive ScrapeOutcome
  | success (contents : List Str)
  | failure
deriving DecidableEq, Repr

/-- Result of `processQueryWithAI`: an optimized query, or a rejection. -/
inductive OptimizeOutcome
  | success (optimizedQuery : Str)
  | failure
deriving DecidableEq, Repr

/-- Result of `webSearch`: a result text, an abort rejection
(`AbortError` or `controller.signal.aborted`), or another rejection with a
message. -/
inductive SearchOutcome
  | success (res : Str)
  | abortError
  | failure (msg : Str)
deriving DecidableEq, Repr

/-- How the awaited dispatch strategy (`handleHighCompute`,
`handleMediumCompute` or `fetchDataAsStream`) resolves: normal return, an
abort rejection, or another rejection with a message.  The incremental and
terminal callbacks the strategy issues while running are separate
`updateAssistantTurn` invocations, modelled directly on that function. -/
inductive DispatchOutcome
  | completed
  | abortThrow
  | errorThrow (msg : Str)
deriving DecidableEq, Repr

/-- The results of the awaited collaborator calls of one send.
`pageContent` is the `currentPageContent` string produced by the active-tab
/ PDF-extraction / cached-page logic (external collaborators), and
`normalizedCustomUrl` is `normalizeApiEndpoint(config.customEndpoint)`
(helper outside the core). -/
structure SendOracles where
  scrape : ScrapeOutcome
  optimize : OptimizeOutcome
  search : SearchOutcome
  abortedAfterSearch : Bool
  pageContent : Str
  dispatch : DispatchOutcome
  normalizedCustomUrl : Str
deriving DecidableEq, Repr

/-- Observable events of one `onSend` run, in program order: each awaited
asynchronous sub-operation, and each append to the Turn Store. -/
inductive Ev
  | awaitScrape
  | awaitOptimize
  | awaitSearch
  | awaitPageRead
  | awaitDispatch
  | appendUserTurn
  | appendAssistantTurn
deriving DecidableEq, Repr

/-- The abort branch of the dispatch `catch` (lines 487-496): clear the
loading flag (when the `isLoading` prop snapshot was set), go idle, and
release the guard and the abort controller if they still belong to this
send. -/
def abortCatch (s : ChatState) (isLoading : Bool) (callId : Nat) : ChatState :=
  let s1 := if isLoading then { s with loading := false } else s
  let s2 := { s1 with chatStatus := ChatStatus.idle }
  let s3 :=
    if s2.completionGuard = some callId then { s2 with completionGuard := none } else s2
  if s3.abortController = some callId then { s3 with abortController := none } else s3

/-- The static host-to-endpoint table of the direct-streaming branch
(lines 438-450), including the `currentModel.host || ''` default; an
unknown host resolves to the empty URL. -/
def urlFor (cfg : Config) (m : LlmModel) (normalizedCustomUrl : Str) : Str :=
  let host := m.host
  if host = str "groq" then str "https://api.groq.com/openai/v1/chat/completions"
  else if host = str "ollama" then jsOrStr cfg.ollamaUrl [] ++ str "/api/chat"
  else if host = str "gemini" then
    str "https://generativelanguage.googleapis.com/v1beta/openai/chat/completions"
  else if host = str "lmStudio" then jsOrStr cfg.lmStudioUrl [] ++ str "/v1/chat/completions"
  else if host = str "openai" then str "https://api.openai.com/v1/chat/completions"
  else if host = str "openrouter" then str "https://openrouter.ai/api/v1/chat/completions"
  else if host = str "custom" then
    (match cfg.customEndpoint with
     | some _ => normalizedCustomUrl ++ str "/v1/chat/completions"
     | none => [])
  else []

/-- The tail of `onSend` from the context-limit computation onwards
(lines 309-502): web/page context limits, system prompt construction, and
the dispatch `try`/`catch`.  The high and medium compute levels share one
modelled branch (both await an external multi-step handler under the same
callback contract); every other configuration takes the direct-streaming
branch with its URL-table lookup. -/
def onSendDispatch (s : ChatState) (isLoading : Bool) (cfg : Config)
    (searchRes scrapedContent : Str) (currentModel : LlmModel) (callId : Nat)
    (g : SendOracles) (now : Nat) : ChatState × List Ev :=
  let webContentForLlm := webContentForLlmOf cfg searchRes
  let pageStep : ChatState × Str × List Ev :=
    if cfg.chatMode = some (str "page") then
      ({ s with chatStatus := ChatStatus.thinking },
        pageContentForLlmOf cfg g.pageContent, [Ev.awaitPageRead])
    else (s, [], [])
  match pageStep with
  | (s2, pageContentForLlm, trPage) =>
    let _systemContent := systemContentOf cfg webContentForLlm pageContentForLlm scrapedContent
    let s3 := { s2 with chatStatus := ChatStatus.thinking }
    let runDispatch : ChatState × List Ev :=
      match g.dispatch with
      | DispatchOutcome.completed => (s3, trPage ++ [Ev.awaitDispatch])
      | DispatchOutcome.abortThrow => (abortCatch s3 isLoading callId, trPage ++ [Ev.awaitDispatch])
      | DispatchOutcome.errorThrow emsg =>
        (updateAssistantTurn s3 (some callId) emsg true true false now,
          trPage ++ [Ev.awaitDispatch])
    if cfg.computeLevel = str "high" ∨ cfg.computeLevel = str "medium" then
      runDispatch
    else
      let url := urlFor cfg currentModel g.normalizedCustomUrl
      if url = [] then
        (updateAssistantTurn s3 (some callId)
          (str "Configuration error: Could not determine API URL for host '" ++
            currentModel.host ++ str "'.") true true false now, trPage)
      else runDispatch

/-- The middle of `onSend` after the two Turn-Store appends (lines 234-307):
model lookup, query optimization and web search, then `onSendDispatch`. -/
def onSendCore (s : ChatState) (isLoading : Bool) (cfg : Config)
    (message scrapedContent : Str) (callId : Nat) (g : SendOracles) (now : Nat) :
    ChatState × List Ev :=
  let performSearch := cfg.chatMode = some (str "web")
  match cfg.models.find? (fun m => m.id == cfg.selectedModel) with
  | none =>
    (updateAssistantTurn s (some callId) (str "Configuration error: No model selected.")
      true true false now, [])
  | some currentModel =>
    let optimizeStep : Str × Str × ChatState × List Ev :=
      if performSearch then
        let s' := { s with chatStatus := ChatStatus.thinking }
        match g.optimize with
        | OptimizeOutcome.success oq =>
          if oq ≠ [] ∧ trimStr oq ≠ [] ∧ oq ≠ message then
            (oq, str "**Optimized query:** \x22*" ++ oq ++ str "*\x22\n\n", s',
              [Ev.awaitOptimize])
          else
            (message, str "**Original query:** \x22" ++ message ++ str "\x22\n\n", s',
              [Ev.awaitOptimize])
        | OptimizeOutcome.failure =>
          (message, str "**Fallback query:** \x22" ++ message ++ str "\x22\n\n", s',
            [Ev.awaitOptimize])
      else (message, [], s, [])
    match optimizeStep with
    | (_queryForProcessing, processedQueryDisplay, s6, trOpt) =>
      if performSearch then
        let sSearching := { s6 with chatStatus := ChatStatus.searching }
        match g.search with
        | SearchOutcome.abortError => (sSearching, trOpt ++ [Ev.awaitSearch])
        | SearchOutcome.failure emsg =>
          let s7 := { sSearching with chatStatus := ChatStatus.idle }
          (updateAssistantTurn s7 (some callId) (str "Web Search Failed: " ++ emsg)
            true true false now, trOpt ++ [Ev.awaitSearch])
        | SearchOutcome.success res =>
          let s7 := { sSearching with chatStatus := ChatStatus.thinking }
          if g.abortedAfterSearch then (s7, trOpt ++ [Ev.awaitSearch])
          else
            let s8 :=
              if processedQueryDisplay ≠ [] then
                { s7 with turns := setWebDisplay s7.turns processedQueryDisplay }
              else s7
            match onSendDispatch s8 isLoading cfg res scrapedContent currentModel callId g now with
            | (s9, trD) => (s9, trOpt ++ [Ev.awaitSearch] ++ trD)
      else
        match onSendDispatch s6 isLoading cfg [] scrapedContent currentModel callId g now with
        | (s9, trD) => (s9, trOpt ++ trD)

/-- The head of `onSend` after its bail-outs (lines 170-232): the previous
send's controller is aborted and replaced, flags and guard are set, URLs
found in the message are scraped (an awaited step) with a fixed placeholder
on any failure, and the user turn and the assistant placeholder are
appended.  Returns the state, the scraped context and the event trace so
far. -/
def onSendPrologue (s0 : ChatState) (cfg : Config) (message : Str) (callId : Nat)
    (g : SendOracles) (now : Nat) : ChatState × Str × List Ev :=
  let s := { s0 with abortController := some callId, loading := true }
  let currentChatMode := jsOrStr cfg.chatMode (str "chat")
  let s := { s with chatStatus :=
    if currentChatMode = str "web" then ChatStatus.searching
    else if currentChatMode = str "page" then ChatStatus.reading
    else ChatStatus.thinking }
  let s := { s with completionGuard := some callId }
  let urls := extractUrls message
  let scrapeStep : ChatState × Str × List Ev :=
    if urls = [] then (s, [], [])
    else
      let sc :=
        match g.scrape with
        | ScrapeOutcome.success contents => joinScraped urls contents
        | ScrapeOutcome.failure => str "[Error scraping one or more URLs]"
      ({ s with chatStatus := ChatStatus.thinking }, sc, [Ev.awaitScrape])
  match scrapeStep with
  | (s2, scrapedContent, trScrape) =>
    let userTurn : MessageTurn :=
      { role := Role.user, rawContent := message,
        status := TurnStatus.complete, timestamp := now }
    let s3 := { s2 with turns := s2.turns ++ [userTurn] }
    let assistantTurnPlaceholder : MessageTurn :=
      { role := Role.assistant, rawContent := [],
        status := TurnStatus.streaming, timestamp := now + 1 }
    let s4 := { s3 with turns := s3.turns ++ [assistantTurnPlaceholder] }
    (s4, scrapedContent, trScrape ++ [Ev.appendUserTurn, Ev.appendAssistantTurn])

/-- The `onSend` handler as a state transformer with an event trace:
bail-outs for a missing config or an empty message, then `onSendPrologue`
followed by `onSendCore`.  `callId` stands for the `Date.now()` call id,
`now` for the turn timestamps. -/
def onSendModel (s0 : ChatState) (isLoading : Bool) (overridedMessage : Option Str)
    (config : Option Config) (callId : Nat) (g : SendOracles) (now : Nat) :
    ChatState × List Ev :=
  let message := match overridedMessage with | some m => m | none => []
  match config with
  | none => ({ s0 with loading := false }, [])
  | some cfg =>
    if message = [] then (s0, [])
    else
      match onSendPrologue s0 cfg message callId g now with
      | (s4, scrapedContent, trPre) =>
        match onSendCore s4 isLoading cfg message scrapedContent callId g now with
        | (s5, trCore) => (s5, trPre ++ trCore)

/-- The `onStop` handler: with an active guard, abort and clear the
controller and apply the cancellation terminal update for the active call
id; with no active guard, only reset the loading flag and chat status. -/
def onStopModel (s : ChatState) (now : Nat) : ChatState :=
  match s.completionGuard with
  | some currentCallId =>
    let s1 := { s with abortController := none }
    updateAssistantTurn s1 (some currentCallId) (str "[Operation cancelled by user]")
      true false true now
  | none => { s with loading := false, chatStatus := ChatStatus.idle }

/-- Fixture: a completed user turn. -/
def exUserTurn : MessageTurn :=
  { role := Role.user, rawContent := str "hi", status := TurnStatus.complete, timestamp := 0 }

/-- Fixture: a streaming assistant turn holding partial output of a second,
currently authoritative send. -/
def exStreamTurn : MessageTurn :=
  { role := Role.assistant, rawContent := str "second partial",
    status := TurnStatus.streaming, timestamp := 1 }

/-- Fixture: state of an in-flight send with guard token 2 whose trailing
assistant turn is streaming. -/
def exActiveState : ChatState :=
  { turns := [exUserTurn, exStreamTurn], loading := true,
    chatStatus := ChatStatus.thinking, completionGuard := some 2, abortController := some 2 }

/-- Fixture: a single streaming assistant turn under guard token 7. -/
def exCancelState : ChatState :=
  { turns := [{ role := Role.assistant, rawContent := str "part",
                status := TurnStatus.streaming, timestamp := 0 }],
    loading := true, chatStatus := ChatStatus.thinking,
    completionGuard := some 7, abortController := some 7 }

/-- Fixture: a finalized transcript with an empty guard slot. -/
def exFinalizedState : ChatState :=
  { turns := [{ role := Role.assistant, rawContent := str "final answer",
                status := TurnStatus.complete, timestamp := 0 }],
    loading := false, chatStatus := ChatStatus.idle,
    completionGuard := none, abortController := none }

/-- Fixture: a configured openai model. -/
def exModel : LlmModel := { id := str "gpt", host := str "openai" }

/-- Fixture: a chat-mode config with limits `webLimit = 5`,
`contextLimit = 3` and one selectable model. -/
def exCfgChat : Config :=
  { chatMode := some (str "chat"), webLimit := some 5, contextLimit := some 3,
    models := [exModel], selectedModel := str "gpt", computeLevel := str "low",
    personas := [], persona := [], useNote := false, noteContent := [],
    userName := none, userProfile := none, ollamaUrl := none,
    lmStudioUrl := none, customEndpoint := none }

/-- Fixture: the same config in web mode. -/
def exCfgWeb : Config := { exCfgChat with chatMode := some (str "web") }

/-- Fixture: collaborator outcomes where every awaited call succeeds. -/
def exOraclesOk : SendOracles :=
  { scrape := ScrapeOutcome.success [str "scraped body"],
    optimize := OptimizeOutcome.success (str "better query"),
    search := SearchOutcome.success (str "search summary"),
    abortedAfterSearch := false, pageContent := str "page text",
    dispatch := DispatchOutcome.completed, normalizedCustomUrl := [] }

/-- Fixture: collaborator outcomes whose web search rejects with an
ordinary (non-abort) error. -/
def exOraclesSearchFail : SendOracles :=
  { exOraclesOk with search := SearchOutcome.failure (str "HTTP 500") }

/-- Fixture: collaborator outcomes whose web search rejects with an abort. -/
def exOraclesSearchAbort : SendOracles :=
  { exOraclesOk with search := SearchOutcome.abortError }

/-- Fixture: an empty initial chat state. -/
def exEmptyState : ChatState :=
  { turns := [], loading := false, chatStatus := ChatStatus.idle,
    completionGuard := none, abortController := none }

/-- Helper: a terminal update that is not a recognised late signal rewrites
the turn list and the flags, and clears the guard slot and the abort
controller exactly when the guard still holds the update's call id. -/
theorem updateAssistantTurn_flush (s : ChatState) (callId : Option Nat) (u : Str)
    (fin err canc : Bool) (now : Nat)
    (hterm : fin = true ∨ err = true ∨ canc = true)
    (hnotlate : ¬(s.completionGuard = none ∧ callId ≠ none ∧
      ((u = [] ∧ fin = true ∧ ¬(err = true) ∧ ¬(canc = true)) ∨
       (err = true ∧ (containsSub u cancelMsg1 = true ∨ containsSub u cancelMsg2 = true))))) :
    updateAssistantTurn s callId u fin err canc now =
      if s.completionGuard = callId then
        { s with turns := updateAssistantTurnTurns s.turns u fin err canc now,
                 loading := false, chatStatus := statusAfterTerminal err canc,
                 completionGuard := none, abortController := none }
      else
        { s with turns := updateAssistantTurnTurns s.turns u fin err canc now,
                 loading := false, chatStatus := statusAfterTerminal err canc } := by
  unfold updateAssistantTurn statusAfterTerminal
  split_ifs with h1 h2 h3 h4 <;> simp_all

/-- Helper: when the turn list ends in an assistant turn, the reconciler's
`setTurns` update replaces that turn, choosing status and content by the
priority orders of the source. -/
theorem updateAssistantTurnTurns_last (prevTurns : List MessageTurn) (u : Str)
    (fin err canc : Bool) (now : Nat) (t : MessageTurn)
    (hlast : prevTurns.getLast? = some t) (hrole : t.role = Role.assistant) :
    updateAssistantTurnTurns prevTurns u fin err canc now =
      prevTurns.dropLast ++
        [{ t with
            rawContent :=
              if canc = true then
                t.rawContent ++ (if t.rawContent = [] then [] else [' ']) ++ u
              else if err = true then
                str "Error: " ++ (if u = [] then str "Unknown stream/handler error" else u)
              else u,
            status :=
              if err = true then TurnStatus.error
              else if canc = true then TurnStatus.cancelled
              else if fin = true then TurnStatus.complete
              else TurnStatus.streaming,
            timestamp := now }] := by
  unfold updateAssistantTurnTurns
  rw [hlast]
  simp [hrole]

/-- C3: a cancellation update (`isCancelled` set, `isError` clear) applied
to a trailing assistant turn with existing content `c` and incoming text `u`
turns its content into `c ++ " " ++ u` (just `u` when `c` is empty), sets
its status to `cancelled`, and never discards the previously streamed
partial output (`c` stays a prefix of the new content). -/
theorem C3_cancellation_appends (s : ChatState) (callId : Option Nat) (u : Str)
    (isFinished : Bool) (now : Nat) (t : MessageTurn)
    (hlast : s.turns.getLast? = some t) (hrole : t.role = Role.assistant) :
    (updateAssistantTurn s callId u isFinished false true now).turns =
      s.turns.dropLast ++
        [{ t with
            rawContent := if t.rawContent = [] then u else t.rawContent ++ [' '] ++ u,
            status := TurnStatus.cancelled, timestamp := now }] ∧
    t.rawContent <+:
      (if t.rawContent = [] then u else t.rawContent ++ [' '] ++ u) := by
  constructor
  · unfold updateAssistantTurn
    rw [if_neg (by simp), if_neg (by simp)]
    simp only [updateAssistantTurnTurns, hlast, hrole]
    rw [apply_ite ChatState.turns]
    split_ifs with hcase <;> simp_all
  · split_ifs with hc
    · simp [hc]
    · exact ⟨[' '] ++ u, by simp⟩

/-- Witness for C3 at a concrete state: cancelling a streaming turn with
content "part" and notice text "[stopped]" yields "part [stopped]" with
status `cancelled`, and "part" is preserved as a prefix. -/
theorem C3_cancellation_appends_witness :
    (updateAssistantTurn exCancelState (some 7) (str "[stopped]") true false true 9).turns =
      exCancelState.turns.dropLast ++
        [{ role := Role.assistant, rawContent := str "part [stopped]",
           status := TurnStatus.cancelled, timestamp := 9 }] ∧
    (str "part") <+: str "part [stopped]" := by
  have h := C3_cancellation_appends exCancelState (some 7) (str "[stopped]") true 9
    { role := Role.assistant, rawContent := str "part",
      status := TurnStatus.streaming, timestamp := 0 }
    (by decide) (by decide)
  revert h
  decide

/-- C1 counterexample: with the second send authoritative (guard token 2)
and its assistant turn streaming "second partial", a late terminal update
tagged with the superseded token 1 DOES overwrite the second send's content
(the trailing turn becomes "stale final"), contradicting the claim that it
must not. -/
theorem C1_counterexample :
    exStreamTurn.rawContent = str "second partial" ∧
    exActiveState.completionGuard = some 2 ∧
    ((updateAssistantTurn exActiveState (some 1) (str "stale final") true false false 5).turns.map
        MessageTurn.rawContent) =
      [str "hi", str "stale final"] := by decide

/-- C1 as amended: with a successor send authoritative (guard `some id2`)
and an update tagged with a different token `id1`, (a) a non-terminal stale
update is never applied, and (b) a stale terminal finish still flushes: it
overwrites the trailing assistant turn's content with the update text,
forces `loading := false`, and leaves the successor's guard slot and abort
controller untouched. -/
theorem C1_amended (s : ChatState) (id1 id2 : Nat) (u : Str) (now : Nat)
    (hguard : s.completionGuard = some id2) (hne : id1 ≠ id2)
    (t : MessageTurn) (hlast : s.turns.getLast? = some t)
    (hrole : t.role = Role.assistant) :
    updateAssistantTurn s (some id1) u false false false now = s ∧
    ((updateAssistantTurn s (some id1) u true false false now).turns =
        s.turns.dropLast ++
          [{ t with rawContent := u, status := TurnStatus.complete, timestamp := now }] ∧
      (updateAssistantTurn s (some id1) u true false false now).loading = false ∧
      (updateAssistantTurn s (some id1) u true false false now).completionGuard = some id2 ∧
      (updateAssistantTurn s (some id1) u true false false now).abortController =
        s.abortController) := by
  have hne' : s.completionGuard ≠ some id1 := by
    rw [hguard]; simp [Ne.symm hne]
  have hfl := updateAssistantTurn_flush s (some id1) u true false false now
    (by simp) (by rw [hguard]; simp)
  rw [if_neg hne'] at hfl
  have htt := updateAssistantTurnTurns_last s.turns u true false false now t hlast hrole
  constructor
  · unfold updateAssistantTurn
    rw [if_pos (by simp [hne'])]
  · rw [hfl]
    refine ⟨?_, rfl, hguard, rfl⟩
    rw [htt]
    simp

/-- Witness for C1 as amended, at the concrete superseded-send state. -/
theorem C1_amended_witness :
    updateAssistantTurn exActiveState (some 1) (str "late") false false false 5 =
      exActiveState ∧
    ((updateAssistantTurn exActiveState (some 1) (str "late") true false false 5).turns =
        exActiveState.turns.dropLast ++
          [{ exStreamTurn with
              rawContent := str "late"
              status := TurnStatus.complete
              timestamp := 5 }] ∧
      (updateAssistantTurn exActiveState (some 1) (str "late") true false false 5).loading =
        false ∧
      (updateAssistantTurn exActiveState (some 1) (str "late") true false false 5).completionGuard =
        some 2 ∧
      (updateAssistantTurn exActiveState (some 1) (str "late") true false false 5).abortController =
        exActiveState.abortController) :=
  C1_amended exActiveState 1 2 (str "late") 5 (by decide) (by decide) exStreamTurn
    (by decide) (by decide)

/-- C4 counterexample: delivering the same cancellation terminal update
twice for the same guard token is NOT a content no-op: the second delivery
appends the cancellation notice a second time. -/
theorem C4_counterexample :
    ((updateAssistantTurn exCancelState (some 7) (str "[Operation cancelled by user]")
        true false true 1).turns.map MessageTurn.rawContent =
      [str "part [Operation cancelled by user]"]) ∧
    ((updateAssistantTurn
        (updateAssistantTurn exCancelState (some 7) (str "[Operation cancelled by user]")
          true false true 1)
        (some 7) (str "[Operation cancelled by user]") true false true 2).turns.map
          MessageTurn.rawContent =
      [str "part [Operation cancelled by user] [Operation cancelled by user]"]) := by
  decide

/-- C4 as amended: for finished and error terminal updates (not
cancellations) delivered twice with the same guard token and arguments, the
second delivery leaves every turn's content and status unchanged and only
resets loading (and flags); duplicate cancellation updates, by contrast,
append their text a second time. -/
theorem C4_amended (s : ChatState) (id : Nat) (u : Str) (fin err : Bool)
    (now1 now2 : Nat) (hguard : s.completionGuard = some id)
    (hterm : fin = true ∨ err = true) (t : MessageTurn)
    (hlast : s.turns.getLast? = some t) (hrole : t.role = Role.assistant) :
    ((updateAssistantTurn (updateAssistantTurn s (some id) u fin err false now1)
        (some id) u fin err false now2).turns.map (fun tn => (tn.rawContent, tn.status)) =
      (updateAssistantTurn s (some id) u fin err false now1).turns.map
        (fun tn => (tn.rawContent, tn.status))) ∧
    (updateAssistantTurn (updateAssistantTurn s (some id) u fin err false now1)
        (some id) u fin err false now2).loading = false ∧
    (updateAssistantTurn (updateAssistantTurn s (some id) u fin err false now1)
        (some id) u fin err false now2).completionGuard =
      (updateAssistantTurn s (some id) u fin err false now1).completionGuard := by
  have hterm' : fin = true ∨ err = true ∨ false = true := by tauto
  have h1 := updateAssistantTurn_flush s (some id) u fin err false now1 hterm'
    (by rw [hguard]; simp)
  rw [if_pos hguard] at h1
  have htt := updateAssistantTurnTurns_last s.turns u fin err false now1 t hlast hrole
  set t1 : MessageTurn :=
    { t with
        rawContent :=
          if false = true then t.rawContent ++ (if t.rawContent = [] then [] else [' ']) ++ u
          else if err = true then
            str "Error: " ++ (if u = [] then str "Unknown stream/handler error" else u)
          else u,
        status :=
          if err = true then TurnStatus.error
          else if false = true then TurnStatus.cancelled
          else if fin = true then TurnStatus.complete
          else TurnStatus.streaming,
        timestamp := now1 } with ht1
  rw [htt] at h1
  by_cases hlate : (u = [] ∧ fin = true ∧ ¬(err = true) ∧ ¬(false = true)) ∨
      (err = true ∧ (containsSub u cancelMsg1 = true ∨ containsSub u cancelMsg2 = true))
  · have h2 : updateAssistantTurn (updateAssistantTurn s (some id) u fin err false now1)
        (some id) u fin err false now2 =
        { updateAssistantTurn s (some id) u fin err false now1 with
            loading := false, chatStatus := ChatStatus.idle } := by
      rw [h1]
      unfold updateAssistantTurn
      rw [if_neg (by rcases hterm with h | h <;> simp [h]),
        if_pos (by exact ⟨rfl, by simp, hlate⟩)]
    rw [h2]
    simp
  · have h2 := updateAssistantTurn_flush (updateAssistantTurn s (some id) u fin err false now1)
      (some id) u fin err false now2 hterm' (fun hc => hlate hc.2.2)
    rw [if_neg (by rw [h1]; simp)] at h2
    have hlast1 : (s.turns.dropLast ++ [t1]).getLast? = some t1 := by simp
    have hrole1 : t1.role = Role.assistant := hrole
    have htt2 := updateAssistantTurnTurns_last (s.turns.dropLast ++ [t1]) u fin err false
      now2 t1 hlast1 hrole1
    refine ⟨?_, ?_, ?_⟩
    · rw [h2]
      simp only [h1, htt2, List.dropLast_concat, List.map_append]
      simp [ht1]
    · rw [h2]
    · rw [h2]

/-- Witness for C4 as amended: a duplicated finished update at a concrete
state mutates content only on the first delivery. -/
theorem C4_amended_witness :
    ((updateAssistantTurn (updateAssistantTurn exCancelState (some 7) (str "done!")
        true false false 1) (some 7) (str "done!") true false false 2).turns.map
          (fun tn => (tn.rawContent, tn.status)) =
      (updateAssistantTurn exCancelState (some 7) (str "done!") true false false 1).turns.map
        (fun tn => (tn.rawContent, tn.status))) ∧
    (updateAssistantTurn (updateAssistantTurn exCancelState (some 7) (str "done!")
        true false false 1) (some 7) (str "done!") true false false 2).loading = false ∧
    (updateAssistantTurn (updateAssistantTurn exCancelState (some 7) (str "done!")
        true false false 1) (some 7) (str "done!") true false false 2).completionGuard =
      (updateAssistantTurn exCancelState (some 7) (str "done!") true false false 1).completionGuard :=
  C4_amended exCancelState 7 (str "done!") true false 1 2 (by decide) (Or.inl rfl)
    { role := Role.assistant, rawContent := str "part",
      status := TurnStatus.streaming, timestamp := 0 }
    (by decide) (by decide)

/-- C8 counterexample: with an empty guard slot, a late terminal finish
whose text is non-empty ("hello") is NOT a content no-op: it overwrites the
finalized trailing assistant turn ("final answer" becomes "hello"),
contradicting the claim's "regardless of the update's text". -/
theorem C8_counterexample :
    exFinalizedState.completionGuard = none ∧
    (exFinalizedState.turns.map MessageTurn.rawContent = [str "final answer"]) ∧
    ((updateAssistantTurn exFinalizedState (some 9) (str "hello") true false false 3).turns.map
        MessageTurn.rawContent = [str "hello"]) := by decide

/-- C8 as amended: with an empty guard slot and a non-null token, a
terminal signal is treated as a content no-op that only forces
`loading := false` and `chatStatus := idle` exactly for the two recognised
late shapes: an empty-text finish with no error/cancel flag, or an error
whose text contains one of the two cancellation phrases; other late
terminal updates still mutate the Turn Store. -/
theorem C8_amended (s : ChatState) (id : Nat) (u : Str) (fin err canc : Bool)
    (now : Nat) (hguard : s.completionGuard = none)
    (hshape : (u = [] ∧ fin = true ∧ err = false ∧ canc = false) ∨
      (err = true ∧ (containsSub u cancelMsg1 = true ∨ containsSub u cancelMsg2 = true))) :
    updateAssistantTurn s (some id) u fin err canc now =
      { s with loading := false, chatStatus := ChatStatus.idle } := by
  unfold updateAssistantTurn
  rw [if_neg (by rcases hshape with ⟨h1, h2, h3, h4⟩ | ⟨h1, h2⟩ <;> simp [h1, h2]),
    if_pos ?_]
  refine ⟨hguard, by simp, ?_⟩
  rcases hshape with ⟨h1, h2, h3, h4⟩ | ⟨h1, h2⟩
  · exact Or.inl ⟨h1, h2, by simp [h3], by simp [h4]⟩
  · exact Or.inr ⟨h1, h2⟩

/-- Witness for C8 as amended: a late error signal containing the phrase
"Operation cancelled by user" leaves the finalized transcript intact and
only resets the flags. -/
theorem C8_amended_witness :
    updateAssistantTurn exFinalizedState (some 9)
        (str "Operation cancelled by user in flight") true true false 3 =
      { exFinalizedState with loading := false, chatStatus := ChatStatus.idle } :=
  C8_amended exFinalizedState 9 (str "Operation cancelled by user in flight")
    true true false 3 (by decide) (Or.inr ⟨rfl, Or.inl (by decide)⟩)

/-- C9 counterexample: an update with both `isError` and `isCancelled` set
gets status `error` (error wins the status priority) but its content is the
cancellation APPEND "part boom", not the error replacement "Error: boom" —
the content rule does not follow the status priority. -/
theorem C9_counterexample :
    ((updateAssistantTurn exCancelState (some 7) (str "boom") true true true 1).turns.map
        (fun tn => (tn.rawContent, tn.status))) =
      [(str "part boom", TurnStatus.error)] := by decide

/-- C9 as amended: for an update applied under a matching guard token to a
trailing assistant turn, the status follows the priority
error > cancelled > finished > streaming, while the content rule follows
the DIFFERENT priority cancellation-append > error-replacement >
wholesale-replacement. -/
theorem C9_amended (s : ChatState) (callId : Option Nat) (u : Str)
    (fin err canc : Bool) (now : Nat) (hguard : s.completionGuard = callId)
    (t : MessageTurn) (hlast : s.turns.getLast? = some t)
    (hrole : t.role = Role.assistant) :
    (updateAssistantTurn s callId u fin err canc now).turns =
      s.turns.dropLast ++
        [{ t with
            rawContent :=
              if canc = true then
                t.rawContent ++ (if t.rawContent = [] then [] else [' ']) ++ u
              else if err = true then
                str "Error: " ++ (if u = [] then str "Unknown stream/handler error" else u)
              else u,
            status :=
              if err = true then TurnStatus.error
              else if canc = true then TurnStatus.cancelled
              else if fin = true then TurnStatus.complete
              else TurnStatus.streaming,
            timestamp := now }] := by
  have htt := updateAssistantTurnTurns_last s.turns u fin err canc now t hlast hrole
  unfold updateAssistantTurn
  rw [if_neg (by simp [hguard]), if_neg ?hn]
  case hn =>
    rintro ⟨h1, h2, -⟩
    exact h2 (hguard ▸ h1)
  rw [apply_ite ChatState.turns]
  split_ifs <;> simp_all

/-- Witness for C9 as amended, at a concrete streaming turn with a pure
error update: content "Error: boom", status `error`. -/
theorem C9_amended_witness :
    (updateAssistantTurn exCancelState (some 7) (str "boom") false true false 1).turns =
      exCancelState.turns.dropLast ++
        [{ role := Role.assistant, rawContent := str "Error: boom",
           status := TurnStatus.error, timestamp := 1 }] := by
  have h := C9_amended exCancelState (some 7) (str "boom") false true false 1 rfl
    { role := Role.assistant, rawContent := str "part",
      status := TurnStatus.streaming, timestamp := 0 }
    (by decide) (by decide)
  revert h
  decide

/-- C10: every terminal update resets the loading flag and the chat status
(to `idle` or `done`), and clears the completion guard slot and the abort
controller exactly when its token equals the currently held guard token; a
terminal update tagged with a superseded token leaves both untouched. -/
theorem C10_terminal_guard_release (s : ChatState) (callId : Option Nat) (u : Str)
    (fin err canc : Bool) (now : Nat)
    (hterm : fin = true ∨ err = true ∨ canc = true) :
    (updateAssistantTurn s callId u fin err canc now).loading = false ∧
    ((updateAssistantTurn s callId u fin err canc now).chatStatus = ChatStatus.idle ∨
      (updateAssistantTurn s callId u fin err canc now).chatStatus = ChatStatus.done) ∧
    (if s.completionGuard = callId then
      (updateAssistantTurn s callId u fin err canc now).completionGuard = none ∧
        (updateAssistantTurn s callId u fin err canc now).abortController = none
     else
      (updateAssistantTurn s callId u fin err canc now).completionGuard =
          s.completionGuard ∧
        (updateAssistantTurn s callId u fin err canc now).abortController =
          s.abortController) := by
  unfold updateAssistantTurn
  split_ifs <;> try simp_all
  all_goals tauto

/-- Witness for C10: a cancelled terminal update under the active token
clears the guard slot and the abort controller and resets the flags. -/
theorem C10_terminal_guard_release_witness :
    (updateAssistantTurn exCancelState (some 7) (str "[Operation cancelled by user]")
        true false true 1).loading = false ∧
    ((updateAssistantTurn exCancelState (some 7) (str "[Operation cancelled by user]")
        true false true 1).chatStatus = ChatStatus.idle ∨
      (updateAssistantTurn exCancelState (some 7) (str "[Operation cancelled by user]")
        true false true 1).chatStatus = ChatStatus.done) ∧
    (if exCancelState.completionGuard = some 7 then
      (updateAssistantTurn exCancelState (some 7) (str "[Operation cancelled by user]")
          true false true 1).completionGuard = none ∧
        (updateAssistantTurn exCancelState (some 7) (str "[Operation cancelled by user]")
          true false true 1).abortController = none
     else
      (updateAssistantTurn exCancelState (some 7) (str "[Operation cancelled by user]")
          true false true 1).completionGuard = exCancelState.completionGuard ∧
        (updateAssistantTurn exCancelState (some 7) (str "[Operation cancelled by user]")
          true false true 1).abortController = exCancelState.abortController) :=
  C10_terminal_guard_release exCancelState (some 7) (str "[Operation cancelled by user]")
    true false true 1 (Or.inl rfl)

/-- C5: with a configured nonzero `webLimit = w`, the web context fragment
is the search result truncated to `w * 1000` characters (exactly that
length whenever the result is at least that long), except that the sentinel
value 128 disables truncation; the analogous rule with `contextLimit`
governs the page content fragment. -/
theorem C5_truncation_sentinel (cfg : Config) (searchRes pageContent : Str)
    (w c : Nat) (hw : cfg.webLimit = some w) (hw0 : w ≠ 0)
    (hc : cfg.contextLimit = some c) (hc0 : c ≠ 0) :
    (w ≠ 128 →
      webContentForLlmOf cfg searchRes = searchRes.take (1000 * w) ∧
      (1000 * w ≤ searchRes.length →
        (webContentForLlmOf cfg searchRes).length = 1000 * w)) ∧
    (w = 128 → webContentForLlmOf cfg searchRes = searchRes) ∧
    (c ≠ 128 →
      pageContentForLlmOf cfg pageContent = pageContent.take (1000 * c)) ∧
    (c = 128 → pageContentForLlmOf cfg pageContent = pageContent) := by
  unfold webContentForLlmOf limitedWebResultOf pageContentForLlmOf jsOrNat
  rw [hw, hc]
  simp only [if_neg hw0, if_neg hc0]
  refine ⟨fun hne => ?_, fun h128 => by simp [h128], fun hne => ?_, fun h128 => by simp [h128]⟩
  · have hnz : (1000 : Nat) * w ≠ 0 := Nat.mul_ne_zero (by norm_num) hw0
    rw [if_neg (by simpa using hne), if_pos hnz]
    refine ⟨rfl, fun hle => ?_⟩
    rw [List.length_take]
    omega
  · have hnz : (1000 : Nat) * c ≠ 0 := Nat.mul_ne_zero (by norm_num) hc0
    rw [if_neg (by simpa using hne)]
    rcases eq_or_ne pageContent [] with hp | hp
    · simp [hp]
    · rw [if_pos ⟨hnz, hp⟩]

/-- Witness for C5 at `webLimit = 5`, `contextLimit = 3`, and the spec's
10,000-character search result: the web fragment is exactly 5,000
characters. -/
theorem C5_truncation_sentinel_witness :
    (5 ≠ 128 →
      webContentForLlmOf exCfgWeb (List.replicate 10000 'a') =
          (List.replicate 10000 'a').take (1000 * 5) ∧
      (1000 * 5 ≤ (List.replicate 10000 'a' : Str).length →
        (webContentForLlmOf exCfgWeb (List.replicate 10000 'a')).length = 1000 * 5)) ∧
    (5 = 128 →
      webContentForLlmOf exCfgWeb (List.replicate 10000 'a') = List.replicate 10000 'a') ∧
    (3 ≠ 128 →
      pageContentForLlmOf exCfgWeb (str "some page") = (str "some page").take (1000 * 3)) ∧
    (3 = 128 →
      pageContentForLlmOf exCfgWeb (str "some page") = str "some page") :=
  C5_truncation_sentinel exCfgWeb (List.replicate 10000 'a') (str "some page") 5 3 rfl
    (by norm_num) rfl (by norm_num)

/-- C6: the system prompt parts are exactly the non-empty context fragments
in the fixed order persona, user profile statement, note context, page
context, web context, scraped-URL context (empty fragments omitted), and
the system prompt is their blank-line-separated concatenation, trimmed. -/
theorem C6_system_prompt_order (persona userCtx note page web scraped : Str)
    (cfg : Config) (webC pageC : Str) :
    systemPromptPartsOf persona userCtx note page web scraped =
      List.filter (fun f => !f.isEmpty)
        [persona, userCtx, note, page, web, scrapedContextStringOf scraped] ∧
    systemContentOf cfg webC pageC scraped =
      trimStr (List.intercalate (str "\n\n")
        (List.filter (fun f => !f.isEmpty)
          [personaOf cfg, userContextStatementOf cfg, noteContextStringOf cfg,
            pageContextStringOf cfg pageC, webContextStringOf cfg webC,
            scrapedContextStringOf scraped])) := by
  have hsw : scrapedWrapper ≠ [] := by decide
  have key : ∀ p u n pg w sc : Str,
      systemPromptPartsOf p u n pg w sc =
        List.filter (fun f => !f.isEmpty)
          [p, u, n, pg, w, scrapedContextStringOf sc] := by
    intro p u n pg w sc
    unfold systemPromptPartsOf scrapedContextStringOf
    rcases eq_or_ne p [] with h1 | h1 <;> rcases eq_or_ne u [] with h2 | h2 <;>
      rcases eq_or_ne n [] with h3 | h3 <;> rcases eq_or_ne pg [] with h4 | h4 <;>
      rcases eq_or_ne w [] with h5 | h5 <;> rcases eq_or_ne sc [] with h6 | h6 <;>
      simp [h1, h2, h3, h4, h5, h6, List.append_eq_nil, hsw]
  exact ⟨key persona userCtx note page web scraped, by
    unfold systemContentOf
    rw [key]⟩

/-- Helper: in web mode with a resolvable model, a non-abort web-search
rejection makes the send apply one terminal error update (text
`"Web Search Failed: " ++ emsg`) after going idle, and stop. -/
theorem onSendCore_search_failure (s : ChatState) (isLoading : Bool) (cfg : Config)
    (message scrapedContent : Str) (callId : Nat) (g : SendOracles) (now : Nat)
    (currentModel : LlmModel) (emsg : Str)
    (hweb : cfg.chatMode = some (str "web"))
    (hmodel : cfg.models.find? (fun m => m.id == cfg.selectedModel) = some currentModel)
    (hsearch : g.search = SearchOutcome.failure emsg) :
    (onSendCore s isLoading cfg message scrapedContent callId g now).1 =
      updateAssistantTurn { s with chatStatus := ChatStatus.idle } (some callId)
        (str "Web Search Failed: " ++ emsg) true true false now := by
  unfold onSendCore
  rw [hmodel]
  dsimp only
  simp only [hweb, hsearch]
  rcases g.optimize with oq | _
  · dsimp only
    split_ifs <;> rfl
  · rfl

/-- Helper: in web mode with a resolvable model, an aborted web search
makes the send return silently, leaving only the `searching` status. -/
theorem onSendCore_search_abort (s : ChatState) (isLoading : Bool) (cfg : Config)
    (message scrapedContent : Str) (callId : Nat) (g : SendOracles) (now : Nat)
    (currentModel : LlmModel)
    (hweb : cfg.chatMode = some (str "web"))
    (hmodel : cfg.models.find? (fun m => m.id == cfg.selectedModel) = some currentModel)
    (hsearch : g.search = SearchOutcome.abortError) :
    (onSendCore s isLoading cfg message scrapedContent callId g now).1 =
      { s with chatStatus := ChatStatus.searching } := by
  unfold onSendCore
  rw [hmodel]
  dsimp only
  simp only [hweb, hsearch]
  rcases g.optimize with oq | _
  · dsimp only
    split_ifs <;> rfl
  · rfl

/-- Helper: the state after the prologue is the initial state with loading
set, guard and controller minted, some chat status, and exactly the user
turn and the assistant placeholder appended. -/
theorem onSendPrologue_fst (s0 : ChatState) (cfg : Config) (message : Str)
    (callId : Nat) (g : SendOracles) (now : Nat) :
    ∃ cs : ChatStatus,
      (onSendPrologue s0 cfg message callId g now).1 =
        { s0 with
            loading := true
            chatStatus := cs
            completionGuard := some callId
            abortController := some callId
            turns := s0.turns ++
              [{ role := Role.user, rawContent := message,
                 status := TurnStatus.complete, timestamp := now },
               { role := Role.assistant, rawContent := [],
                 status := TurnStatus.streaming, timestamp := now + 1 }] } := by
  unfold onSendPrologue
  dsimp only
  by_cases hurl : extractUrls message = []
  · rw [if_pos hurl]
    refine ⟨if jsOrStr cfg.chatMode (str "chat") = str "web" then ChatStatus.searching
      else if jsOrStr cfg.chatMode (str "chat") = str "page" then ChatStatus.reading
      else ChatStatus.thinking, ?_⟩
    dsimp only
    simp
  · rw [if_neg hurl]
    exact ⟨ChatStatus.thinking, by dsimp only; simp⟩

/-- Helper: with a config and a non-empty message, the send's final state
is the core run from the prologue state. -/
theorem onSendModel_fst (s0 : ChatState) (isLoading : Bool) (message : Str)
    (cfg : Config) (callId : Nat) (g : SendOracles) (now : Nat) (hm : message ≠ []) :
    (onSendModel s0 isLoading (some message) (some cfg) callId g now).1 =
      (onSendCore (onSendPrologue s0 cfg message callId g now).1 isLoading cfg message
        (onSendPrologue s0 cfg message callId g now).2.1 callId g now).1 := by
  unfold onSendModel
  dsimp only
  rw [if_neg hm]

/-- C2 counterexample: for the message "see https://a.b" (which matches the
URL regex), the URL scraping await comes FIRST in the event trace, before
the user turn and assistant placeholder are appended — contradicting the
claim that both appends precede every awaited sub-operation of the send. -/
theorem C2_counterexample :
    (onSendModel exEmptyState false (some (str "see https://a.b")) (some exCfgChat) 1
        exOraclesOk 10).2 =
      [Ev.awaitScrape, Ev.appendUserTurn, Ev.appendAssistantTurn, Ev.awaitDispatch] := by
  decide

/-- C2 as amended: for every send with a non-empty message and a config,
the user turn and the assistant placeholder are appended before query
optimization, web search, page read and dispatch are awaited; however, when
the message contains URLs, the URL scraping await precedes the appends (and
when it contains none, the appends come first in the whole trace). -/
theorem C2_amended (s0 : ChatState) (isLoading : Bool) (message : Str) (cfg : Config)
    (callId : Nat) (g : SendOracles) (now : Nat) (hm : message ≠ []) :
    ∃ rest, (onSendModel s0 isLoading (some message) (some cfg) callId g now).2 =
      (if extractUrls message = [] then [] else [Ev.awaitScrape]) ++
        [Ev.appendUserTurn, Ev.appendAssistantTurn] ++ rest := by
  unfold onSendModel onSendPrologue
  dsimp only
  rw [if_neg hm]
  by_cases hurl : extractUrls message = []
  · rw [if_pos hurl, if_pos hurl]
    dsimp only
    refine ⟨?_, ?_⟩
    rotate_left
    · exact rfl
  · rw [if_neg hurl, if_neg hurl]
    dsimp only
    refine ⟨?_, ?_⟩
    rotate_left
    · exact rfl

/-- Witness for C2 as amended: the URL-free message "hello" yields a trace
that begins with the two appends. -/
theorem C2_amended_witness :
    ∃ rest, (onSendModel exEmptyState false (some (str "hello")) (some exCfgChat) 1
        exOraclesOk 10).2 =
      (if extractUrls (str "hello") = [] then [] else [Ev.awaitScrape]) ++
        [Ev.appendUserTurn, Ev.appendAssistantTurn] ++ rest :=
  C2_amended exEmptyState false (str "hello") exCfgChat 1 exOraclesOk 10 (by decide)

/-- C7: for a web-mode send with a non-empty message and a resolvable
model, a non-abort web-search failure terminates the send with exactly the
user turn plus one assistant turn of status `error` whose content starts
with "Error: ", prior turns untouched, loading cleared; an aborted search
returns silently, leaving the placeholder streaming and the guard held. -/
theorem C7_search_failure_terminates (s0 : ChatState) (isLoading : Bool) (message : Str)
    (cfg : Config) (currentModel : LlmModel) (callId : Nat) (g : SendOracles)
    (now : Nat) (emsg : Str) (hm : message ≠ [])
    (hweb : cfg.chatMode = some (str "web"))
    (hmodel : cfg.models.find? (fun m => m.id == cfg.selectedModel) = some currentModel) :
    (g.search = SearchOutcome.failure emsg →
      (onSendModel s0 isLoading (some message) (some cfg) callId g now).1.turns =
        s0.turns ++
          [{ role := Role.user, rawContent := message,
             status := TurnStatus.complete, timestamp := now },
           { role := Role.assistant,
             rawContent := str "Error: " ++ (str "Web Search Failed: " ++ emsg),
             status := TurnStatus.error, timestamp := now }] ∧
      (str "Error: ") <+: (str "Error: " ++ (str "Web Search Failed: " ++ emsg)) ∧
      (onSendModel s0 isLoading (some message) (some cfg) callId g now).1.loading = false) ∧
    (g.search = SearchOutcome.abortError →
      (onSendModel s0 isLoading (some message) (some cfg) callId g now).1.turns =
        s0.turns ++
          [{ role := Role.user, rawContent := message,
             status := TurnStatus.complete, timestamp := now },
           { role := Role.assistant, rawContent := [],
             status := TurnStatus.streaming, timestamp := now + 1 }] ∧
      (onSendModel s0 isLoading (some message) (some cfg) callId g now).1.completionGuard =
        some callId) := by
  obtain ⟨cs, hpl⟩ := onSendPrologue_fst s0 cfg message callId g now
  have hred := onSendModel_fst s0 isLoading message cfg callId g now hm
  constructor
  · intro hsearch
    have hcore := onSendCore_search_failure ((onSendPrologue s0 cfg message callId g now).1)
      isLoading cfg message ((onSendPrologue s0 cfg message callId g now).2.1)
      callId g now currentModel emsg hweb hmodel hsearch
    rw [hred, hcore, hpl]
    have hne2 : (str "Web Search Failed: " ++ emsg) ≠ [] := by
      have hx : str "Web Search Failed: " ≠ [] := by decide
      simp [hx]
    have hfl := updateAssistantTurn_flush
      { ({ s0 with
            loading := true
            chatStatus := cs
            completionGuard := some callId
            abortController := some callId
            turns := s0.turns ++
              [{ role := Role.user, rawContent := message,
                 status := TurnStatus.complete, timestamp := now },
               { role := Role.assistant, rawContent := [],
                 status := TurnStatus.streaming, timestamp := now + 1 }] } : ChatState) with
          chatStatus := ChatStatus.idle }
      (some callId) (str "Web Search Failed: " ++ emsg) true true false now
      (by simp) (by simp)
    rw [hfl, if_pos (by simp)]
    refine ⟨?_, ⟨str "Web Search Failed: " ++ emsg, rfl⟩, rfl⟩
    have htt := updateAssistantTurnTurns_last
      (s0.turns ++
        [{ role := Role.user, rawContent := message,
           status := TurnStatus.complete, timestamp := now },
         { role := Role.assistant, rawContent := [],
           status := TurnStatus.streaming, timestamp := now + 1 }])
      (str "Web Search Failed: " ++ emsg) true true false now
      { role := Role.assistant, rawContent := [],
        status := TurnStatus.streaming, timestamp := now + 1 }
      (by simp) rfl
    dsimp only
    rw [htt]
    simp [hne2]
  · intro hsearch
    have hcore := onSendCore_search_abort ((onSendPrologue s0 cfg message callId g now).1)
      isLoading cfg message ((onSendPrologue s0 cfg message callId g now).2.1)
      callId g now currentModel hweb hmodel hsearch
    rw [hred, hcore, hpl]
    simp

/-- Witness for C7 at a concrete web-mode send whose search fails with
"HTTP 500". -/
theorem C7_search_failure_terminates_witness :
    (exOraclesSearchFail.search = SearchOutcome.failure (str "HTTP 500") →
      (onSendModel exEmptyState false (some (str "find this")) (some exCfgWeb) 1
          exOraclesSearchFail 10).1.turns =
        exEmptyState.turns ++
          [{ role := Role.user, rawContent := str "find this",
             status := TurnStatus.complete, timestamp := 10 },
           { role := Role.assistant,
             rawContent := str "Error: " ++ (str "Web Search Failed: " ++ str "HTTP 500"),
             status := TurnStatus.error, timestamp := 10 }] ∧
      (str "Error: ") <+:
        (str "Error: " ++ (str "Web Search Failed: " ++ str "HTTP 500")) ∧
      (onSendModel exEmptyState false (some (str "find this")) (some exCfgWeb) 1
          exOraclesSearchFail 10).1.loading = false) ∧
    (exOraclesSearchFail.search = SearchOutcome.abortError →
      (onSendModel exEmptyState false (some (str "find this")) (some exCfgWeb) 1
          exOraclesSearchFail 10).1.turns =
        exEmptyState.turns ++
          [{ role := Role.user, rawContent := str "find this",
             status := TurnStatus.complete, timestamp := 10 },
           { role := Role.assistant, rawContent := [],
             status := TurnStatus.streaming, timestamp := 11 }] ∧
      (onSendModel exEmptyState false (some (str "find this")) (some exCfgWeb) 1
          exOraclesSearchFail 10).1.completionGuard = some 1) :=
  C7_search_failure_terminates exEmptyState false (str "find this") exCfgWeb exModel 1
    exOraclesSearchFail 10 (str "HTTP 500") (by decide) (by decide) (by decide)

end Cognito
